import Mathlib

/-
Verification of the TTS conversion pipeline of this repository.

The repository has two Express servers exposing a POST /convert handler:
the current one (src/unnamed/part_000) which dispatches between a gtts
engine and an edge-tts engine and returns a JSON success value
with a url and a fileName, and a legacy one (src/server.js) which only
supports gtts, streams the produced file back to the caller and then
deletes it.

The handlers are shallowly embedded as pure functions over an explicit
filesystem state (an association list from path to contents) and an
environment of engine oracles (the gtts and edge-tts backends, and the
legacy sendFile outcome).  The embedding additionally records which
engine adapter was invoked and with which (text, voice) arguments, and
whether the gender/voice mapping tables were consulted, so that
dispatch and resolver-bypass properties are observable.
-/

/-! ## Filesystem model -/

/-- A filesystem: an association list from absolute path to file contents.
Audio bytes and text are both represented as strings, since no claim
inspects the structure of audio data. -/
abbrev Fs := List (String × String)

/-- Read a file: the contents at the first binding of the path, if any
(models fs.promises.readFile, which rejects when the path is absent). -/
def fsRead : Fs → String → Option String
  | [], _ => none
  | (q, b) :: rest, p => if q = p then some b else fsRead rest p

/-- Remove every binding of a path (models fs.promises.unlink). -/
def fsRemove : Fs → String → Fs
  | [], _ => []
  | (q, b) :: rest, p => if q = p then fsRemove rest p else (q, b) :: fsRemove rest p

/-- Write a file, replacing any previous binding of the path
(models fs.promises.writeFile / a synthesis engine saving to a path). -/
def fsWrite (fs : Fs) (p : String) (b : String) : Fs := (p, b) :: fsRemove fs p

theorem fsRead_fsWrite_self (fs : Fs) (p b : String) : fsRead (fsWrite fs p b) p = some b := by
  simp [fsWrite, fsRead]

theorem fsRead_fsRemove_self (fs : Fs) (p : String) : fsRead (fsRemove fs p) p = none := by
  induction fs with
  | nil => simp [fsRemove, fsRead]
  | cons hd tl ih =>
      obtain ⟨q, b⟩ := hd
      by_cases h : q = p
      · simpa [fsRemove, h] using ih
      · simpa [fsRemove, fsRead, h] using ih

theorem fsRead_fsRemove_other (fs : Fs) (p q : String) (h : q ≠ p) :
    fsRead (fsRemove fs p) q = fsRead fs q := by
  have hpq : p ≠ q := fun hpq => h hpq.symm
  induction fs with
  | nil => simp [fsRemove]
  | cons hd tl ih =>
      obtain ⟨r, b⟩ := hd
      by_cases hr : r = p
      · subst hr
        simp [fsRemove, fsRead, hpq, ih]
      · by_cases hq : r = q
        · subst hq
          simp [fsRemove, fsRead, hr]
        · simp [fsRemove, fsRead, hr, hq, ih]

theorem fsRead_fsWrite_other (fs : Fs) (p q b : String) (h : q ≠ p) :
    fsRead (fsWrite fs p b) q = fsRead fs q := by
  have hp : p ≠ q := fun hpq => h hpq.symm
  simp [fsWrite, fsRead, hp, fsRead_fsRemove_other fs p q h]

/-! ## JavaScript value conventions -/

/-- Truthiness of an optional string body field: undefined and the empty
string are falsy, every other string is truthy. -/
def jsTruthy (o : Option String) : Bool := o.getD "" != ""

/-- The JavaScript idiom field-or-default (the binary or operator on a
string field whose possible values are all truthy): take the field when
present and non-empty, otherwise the default. -/
def orDefault (o : Option String) (d : String) : String :=
  if jsTruthy o then o.getD "" else d

/-- ASCII lowercasing, modelling String.prototype.toLowerCase on the
engine identifiers that occur in requests. -/
def toLowerCase (s : String) : String := String.mk (s.data.map Char.toLower)

/-! ## Voice resolver (lines 136-159 of the current handler) -/

/-- A JavaScript value that a bracket lookup on one of the voice tables
can produce: either a string (an own property value of the object
literal, or the selectedVoice fallback), or the truthy non-string value
inherited from Object.prototype under the given key (a built-in
function, or Object.prototype itself for the proto accessor). -/
inductive JsValue where
  | str (s : String)
  | protoProp (name : String)
  deriving DecidableEq

/-- The string keys at which a plain object literal, which inherits
from Object.prototype, resolves to an inherited (truthy, non-string)
property rather than to undefined. -/
def objectProtoKeys : List String :=
  ["constructor", "hasOwnProperty", "isPrototypeOf", "propertyIsEnumerable",
   "toLocaleString", "toString", "valueOf",
   "__defineGetter__", "__defineSetter__", "__lookupGetter__", "__lookupSetter__",
   "__proto__"]

/-- The maleVoices object literal under bracket lookup: an own property
for the six listed keys, the inherited Object.prototype property for
its keys, and undefined (none) otherwise. -/
def maleVoices (v : String) : Option JsValue :=
  if v = "en" then some (JsValue.str "en-us")
  else if v = "en-uk" then some (JsValue.str "en-uk")
  else if v = "en-au" then some (JsValue.str "en-au")
  else if v = "hi" then some (JsValue.str "hi")
  else if v = "fr" then some (JsValue.str "fr")
  else if v = "es" then some (JsValue.str "es")
  else if v ∈ objectProtoKeys then some (JsValue.protoProp v)
  else none

/-- The femaleVoices object literal under bracket lookup, with the same
Object.prototype inheritance as maleVoices. -/
def femaleVoices (v : String) : Option JsValue :=
  if v = "en" then some (JsValue.str "en")
  else if v = "en-uk" then some (JsValue.str "en-uk")
  else if v = "en-au" then some (JsValue.str "en-au")
  else if v = "hi" then some (JsValue.str "hi")
  else if v = "fr" then some (JsValue.str "fr")
  else if v = "es" then some (JsValue.str "es")
  else if v ∈ objectProtoKeys then some (JsValue.protoProp v)
  else none

/-- The own keys of both mapping tables. -/
def voiceTableKeys : List String := ["en", "en-uk", "en-au", "hi", "fr", "es"]

/-- The gender-to-voice mapping: voiceCode starts as selectedVoice and is
replaced by the table lookup result when it is truthy (every own value
and every inherited Object.prototype property is truthy; only undefined
is falsy, the JavaScript table-lookup-or-selectedVoice idiom), when
gender is exactly the string male or exactly female; any other gender
value leaves voiceCode untouched. -/
def voiceCode (gender selectedVoice : String) : JsValue :=
  if gender = "male" then (maleVoices selectedVoice).getD (JsValue.str selectedVoice)
  else if gender = "female" then (femaleVoices selectedVoice).getD (JsValue.str selectedVoice)
  else JsValue.str selectedVoice

/-! ## Requests, results, environment -/

/-- The parts of the incoming request the /convert handlers consume:
the multer upload (req.file.path) and the body fields. A missing field
is none. -/
structure ConvertRequest where
  file : Option String
  textInput : Option String
  engine : Option String
  voice : Option String
  gender : Option String

/-- Outcome of one gtts save call: the callback either succeeds after
writing the audio to the output path, or reports an error; on an error
the engine may or may not have partially written the output file. -/
inductive GttsOutcome where
  | ok (audio : String)
  | fail (written : Option String)
  deriving DecidableEq

/-- The environment of one request: the millisecond timestamp Date.now()
observed by the handler, the two synthesis backends as oracles keyed by
(text, voice), and whether the legacy res.sendFile delivery succeeds. -/
structure Env where
  ts : Nat
  gtts : String → JsValue → GttsOutcome
  edge : String → String → Option String
  sendOk : Bool

/-- The HTTP response of the current /convert handler: the 200 JSON
success value with a url and a fileName, the 400 validation response,
or the 500 catch-all conversion error response. -/
inductive ConvertResult where
  | success (url fileName : String)
  | validationError (message : String)
  | conversionError
  deriving DecidableEq

/-- The observable outcome of one invocation of the current handler:
the response, the final filesystem, whether the gender mapping block
consulted a voice table, and the (text, voice) argument of each call to
the gtts and to the edge adapters. -/
structure ConvertOutcome where
  result : ConvertResult
  fs : Fs
  resolverConsulted : Bool
  gttsCalls : List (String × JsValue)
  edgeCalls : List (String × JsValue)
  deriving DecidableEq

/-- The audio artifact directory path.join(dirname, public, audio). -/
def audioDir : String := "public/audio"

/-- The generated artifact name speech-<Date.now()>.mp3. -/
def outputFileName (ts : Nat) : String := "speech-" ++ toString ts ++ ".mp3"

/-- The absolute artifact path path.join(audioDir, outputFileName). -/
def outputPath (ts : Nat) : String := audioDir ++ "/" ++ outputFileName ts

/-! ## The current /convert handler (src/unnamed/part_000, lines 117-208) -/

/-- The body of the current handler after text extraction (lines
130-207): engine defaulting and lowercasing, voice and gender
defaulting, the gender mapping block, artifact naming, and the dispatch
to the edge or gtts engine followed by the success response or the
catch-all error response. -/
def convertBody (env : Env) (req : ConvertRequest) (textToConvert : String) (fs : Fs) :
    ConvertOutcome :=
  let engine := toLowerCase (orDefault req.engine "gtts")
  let selectedVoice := orDefault req.voice "en"
  let gender := orDefault req.gender "male"
  let vc := voiceCode gender selectedVoice
  let consulted := gender == "male" || gender == "female"
  let fileName := outputFileName env.ts
  let outPath := outputPath env.ts
  if engine = "edge" then
    let voice := orDefault req.voice "en-US-AriaNeural"
    match env.edge textToConvert voice with
    | some audio =>
        { result := ConvertResult.success ("/audio/" ++ fileName) fileName
          fs := fsWrite fs outPath audio
          resolverConsulted := consulted
          gttsCalls := []
          edgeCalls := [(textToConvert, JsValue.str voice)] }
    | none =>
        { result := ConvertResult.conversionError
          fs := fs
          resolverConsulted := consulted
          gttsCalls := []
          edgeCalls := [(textToConvert, JsValue.str voice)] }
  else
    match env.gtts textToConvert vc with
    | GttsOutcome.ok audio =>
        { result := ConvertResult.success ("/audio/" ++ fileName) fileName
          fs := fsWrite fs outPath audio
          resolverConsulted := consulted
          gttsCalls := [(textToConvert, vc)]
          edgeCalls := [] }
    | GttsOutcome.fail (some written) =>
        { result := ConvertResult.conversionError
          fs := fsWrite fs outPath written
          resolverConsulted := consulted
          gttsCalls := [(textToConvert, vc)]
          edgeCalls := [] }
    | GttsOutcome.fail none =>
        { result := ConvertResult.conversionError
          fs := fs
          resolverConsulted := consulted
          gttsCalls := [(textToConvert, vc)]
          edgeCalls := [] }

/-- The current /convert handler: text extraction (lines 119-128) —
read and unlink the uploaded file when present, else take the truthy
textInput body field, else respond 400 — followed by convertBody.  A
failing readFile (upload path absent) rejects into the catch-all 500. -/
def convert (env : Env) (req : ConvertRequest) (fs : Fs) : ConvertOutcome :=
  match req.file with
  | some fpath =>
      match fsRead fs fpath with
      | none =>
          { result := ConvertResult.conversionError
            fs := fs
            resolverConsulted := false
            gttsCalls := []
            edgeCalls := [] }
      | some contents => convertBody env req contents (fsRemove fs fpath)
  | none =>
      if jsTruthy req.textInput then
        convertBody env req (req.textInput.getD "") fs
      else
        { result := ConvertResult.validationError "No text or file provided"
          fs := fs
          resolverConsulted := false
          gttsCalls := []
          edgeCalls := [] }

/-! ## The legacy /convert handler (src/server.js, lines 49-124) -/

/-- The HTTP response of the legacy handler: the streamed audio file,
the 400 validation response, the 500 send-failure response, or the 500
catch-all error response. -/
inductive LegacyResult where
  | sent (fileName : String)
  | validationError (message : String)
  | sendError
  | conversionError
  deriving DecidableEq

/-- The observable outcome of one invocation of the legacy handler. -/
structure LegacyOutcome where
  result : LegacyResult
  fs : Fs
  deriving DecidableEq

/-- The legacy /convert handler (src/server.js): same text extraction
and gender mapping, gtts only; on a successful save it streams the file
with res.sendFile and, when the send succeeds, unlinks the artifact
(the clean-up-after-sending block, lines 106-118). -/
def legacyConvert (env : Env) (req : ConvertRequest) (fs0 : Fs) : LegacyOutcome :=
  let step := fun (textToConvert : String) (fs : Fs) =>
    let vc := voiceCode (orDefault req.gender "male") (orDefault req.voice "en")
    let outPath := outputPath env.ts
    match env.gtts textToConvert vc with
    | GttsOutcome.ok audio =>
        if env.sendOk then
          { result := LegacyResult.sent (outputFileName env.ts)
            fs := fsRemove (fsWrite fs outPath audio) outPath : LegacyOutcome }
        else
          { result := LegacyResult.sendError
            fs := fsWrite fs outPath audio }
    | GttsOutcome.fail (some written) =>
        { result := LegacyResult.conversionError
          fs := fsWrite fs outPath written }
    | GttsOutcome.fail none =>
        { result := LegacyResult.conversionError
          fs := fs }
  match req.file with
  | some fpath =>
      match fsRead fs0 fpath with
      | none => { result := LegacyResult.conversionError, fs := fs0 }
      | some contents => step contents (fsRemove fs0 fpath)
  | none =>
      if jsTruthy req.textInput then
        step (req.textInput.getD "") fs0
      else
        { result := LegacyResult.validationError "No text or file provided", fs := fs0 }

/-! ## Concrete environments and requests for witnesses -/

/-- An environment whose backends always succeed, at timestamp 7. -/
def gttsOkEnv : Env :=
  { ts := 7, gtts := fun _ _ => GttsOutcome.ok "AUDIOBYTES",
    edge := fun _ _ => some "EDGEBYTES", sendOk := true }

/-- An environment whose gtts backend fails after a partial write and
whose edge backend fails, at timestamp 9. -/
def gttsFailEnv : Env :=
  { ts := 9, gtts := fun _ _ => GttsOutcome.fail (some "PARTIALBYTES"),
    edge := fun _ _ => none, sendOk := true }

/-- A plain inline-text gtts request. -/
def reqGtts : ConvertRequest :=
  { file := none, textInput := some "Hello world", engine := some "gtts",
    voice := some "en", gender := some "male" }

/-- An inline-text request whose text is a single space (truthy in
JavaScript, but empty after trimming). -/
def reqWhitespace : ConvertRequest :=
  { file := none, textInput := some " ", engine := none, voice := none, gender := none }

/-- A request with no uploaded file and no textInput field. -/
def reqNoText : ConvertRequest :=
  { file := none, textInput := none, engine := some "gtts", voice := none, gender := none }

/-- A request whose engine field is the uppercase string EDGE. -/
def reqUpperEdge : ConvertRequest :=
  { file := none, textInput := some "hi", engine := some "EDGE", voice := none, gender := none }

/-- An edge request carrying the raw gtts-style voice hint en and no
gender field. -/
def reqEdgeRaw : ConvertRequest :=
  { file := none, textInput := some "Test", engine := some "edge",
    voice := some "en", gender := none }

/-- A gtts request for voice en whose gender field is the unrecognized
value neutral. -/
def reqNeutral : ConvertRequest :=
  { file := none, textInput := some "hi", engine := none, voice := some "en",
    gender := some "neutral" }

/-- A gtts request whose voice field is the Object.prototype key
constructor. -/
def reqProto : ConvertRequest :=
  { file := none, textInput := some "hi", engine := none,
    voice := some "constructor", gender := none }

/-- A request carrying both an uploaded file and inline text. -/
def reqFile : ConvertRequest :=
  { file := some "uploads/123-a.txt", textInput := some "ignored inline text",
    engine := some "gtts", voice := some "en", gender := none }

/-- A filesystem holding the uploaded text file of reqFile. -/
def fsFile : Fs := [("uploads/123-a.txt", "file text")]

/-! ## Helper lemmas about convertBody -/

theorem convertBody_frame (env : Env) (req : ConvertRequest) (t : String) (fs : Fs)
    (q : String) (h : q ≠ outputPath env.ts) :
    fsRead (convertBody env req t fs).fs q = fsRead fs q := by
  simp only [convertBody]
  split
  · split <;> simp [fsRead_fsWrite_other _ _ _ _ h]
  · split <;> simp [fsRead_fsWrite_other _ _ _ _ h]

theorem convertBody_calls_text (env : Env) (req : ConvertRequest) (t : String) (fs : Fs) :
    ∀ call ∈ (convertBody env req t fs).gttsCalls ++ (convertBody env req t fs).edgeCalls,
      call.1 = t := by
  simp only [convertBody]
  split
  · split <;> simp
  · split <;> simp

/-! ## Claims -/

/-- C1: for every request with non-empty inline text and engine gtts
whose synthesis succeeds, convert creates exactly one new file in the
audio directory, named speech-<timestamp>.mp3, and returns a success
value whose url is exactly /audio/ concatenated with that fileName: the
artifact path is fresh before the call, holds the synthesized audio
after the call, and every other path is untouched. -/
theorem convert_gtts_success_one_new_file (env : Env) (req : ConvertRequest) (fs : Fs)
    (t audio : String)
    (hfile : req.file = none) (htext : req.textInput = some t) (hne : t ≠ "")
    (heng : req.engine = some "gtts")
    (hok : env.gtts t (voiceCode (orDefault req.gender "male") (orDefault req.voice "en")) =
      GttsOutcome.ok audio)
    (hfresh : fsRead fs (outputPath env.ts) = none) :
    (convert env req fs).result =
      ConvertResult.success ("/audio/" ++ outputFileName env.ts) (outputFileName env.ts) ∧
    fsRead (convert env req fs).fs (outputPath env.ts) = some audio ∧
    (∀ p, p ≠ outputPath env.ts → fsRead (convert env req fs).fs p = fsRead fs p) := by
  have hconv : convert env req fs = convertBody env req t fs := by
    simp [convert, hfile, htext, jsTruthy, hne]
  have hlow : toLowerCase (orDefault req.engine "gtts") ≠ "edge" := by
    rw [heng]; decide
  rw [hconv]
  refine ⟨?_, ?_, fun p hp => convertBody_frame env req t fs p hp⟩
  · simp [convertBody, hlow, hok]
  · simp [convertBody, hlow, hok, fsRead_fsWrite_self]

theorem convert_gtts_success_one_new_file_witness :
    (convert gttsOkEnv reqGtts []).result =
      ConvertResult.success ("/audio/" ++ outputFileName 7) (outputFileName 7) ∧
    fsRead (convert gttsOkEnv reqGtts []).fs (outputPath 7) = some "AUDIOBYTES" ∧
    fsRead (convert gttsOkEnv reqGtts []).fs "uploads/a.txt" = fsRead ([] : Fs) "uploads/a.txt" := by
  have h := convert_gtts_success_one_new_file gttsOkEnv reqGtts [] "Hello world" "AUDIOBYTES"
    rfl rfl (by decide) rfl rfl rfl
  exact ⟨h.1, h.2.1, h.2.2 "uploads/a.txt" (by decide)⟩

/-- C2 counterexample: an inline text consisting of one space (only
whitespace, hence empty after trimming) with no uploaded file is not
rejected: the handler never trims, the field is truthy, and conversion
proceeds, here all the way to a success response and a written
artifact, instead of the claimed ValidationError with zero artifacts. -/
theorem whitespace_text_not_rejected_cex :
    (convert gttsOkEnv reqWhitespace []).result =
      ConvertResult.success "/audio/speech-7.mp3" "speech-7.mp3" ∧
    fsRead (convert gttsOkEnv reqWhitespace []).fs (outputPath 7) = some "AUDIOBYTES" := by
  decide

/-- C2 amended: for every request whose textInput field is absent or is
the empty string (JavaScript-falsy; no trimming is performed, so
whitespace-only text is accepted) and that carries no uploaded file,
convert fails with the validation response No text or file provided and
leaves the filesystem unchanged (zero artifacts). -/
theorem convert_falsy_text_validation_error (env : Env) (req : ConvertRequest) (fs : Fs)
    (hfile : req.file = none) (hfalsy : jsTruthy req.textInput = false) :
    (convert env req fs).result = ConvertResult.validationError "No text or file provided" ∧
    (convert env req fs).fs = fs := by
  simp [convert, hfile, hfalsy]

theorem convert_falsy_text_validation_error_witness :
    (convert gttsOkEnv reqNoText []).result =
      ConvertResult.validationError "No text or file provided" ∧
    (convert gttsOkEnv reqNoText []).fs = [] :=
  convert_falsy_text_validation_error gttsOkEnv reqNoText [] rfl rfl

/-- C3 counterexample: the voice resolver does not pass through every
requestedVoice outside the table: the object literals inherit from
Object.prototype, so a lookup at a key such as constructor or toString
yields the truthy inherited property, the or-selectedVoice fallback is
not taken, and the resolved voice is that inherited non-string value
rather than the requested string; the inherited value even reaches the
gtts engine call of a full conversion. -/
theorem proto_key_not_passthrough_cex :
    voiceCode "male" "constructor" = JsValue.protoProp "constructor" ∧
    voiceCode "male" "constructor" ≠ JsValue.str "constructor" ∧
    voiceCode "female" "toString" = JsValue.protoProp "toString" ∧
    voiceCode "female" "toString" ≠ JsValue.str "toString" ∧
    (convert gttsOkEnv reqProto []).gttsCalls = [("hi", JsValue.protoProp "constructor")] := by
  decide

/-- C3 amended: the voice resolver is a total pure function of
(requestedVoice, gender): en with male gives en-us, en with female
gives en, hi with female gives hi, every listed key other than en maps
to itself under both genders, and every voice outside both the table
and the set of Object.prototype property names is passed through
unchanged for both genders; a voice naming an Object.prototype
property, however, resolves to the truthy inherited value at that key
instead of passing through. -/
theorem voiceCode_resolution (v g : String) :
    voiceCode "male" "en" = JsValue.str "en-us" ∧
    voiceCode "female" "en" = JsValue.str "en" ∧
    voiceCode "female" "hi" = JsValue.str "hi" ∧
    (v ∈ ["en-uk", "en-au", "hi", "fr", "es"] →
      voiceCode "male" v = JsValue.str v ∧ voiceCode "female" v = JsValue.str v) ∧
    ((g = "male" ∨ g = "female") → v ∉ voiceTableKeys → v ∉ objectProtoKeys →
      voiceCode g v = JsValue.str v) ∧
    ((g = "male" ∨ g = "female") → v ∈ objectProtoKeys →
      voiceCode g v = JsValue.protoProp v) := by
  refine ⟨by decide, by decide, by decide, fun hv => ?_, fun hg hv hp => ?_, fun hg hv => ?_⟩
  · simp only [List.mem_cons, List.not_mem_nil, or_false] at hv
    rcases hv with rfl | rfl | rfl | rfl | rfl <;> exact ⟨by decide, by decide⟩
  · simp only [voiceTableKeys, List.mem_cons, List.not_mem_nil, or_false, not_or] at hv
    obtain ⟨h1, h2, h3, h4, h5, h6⟩ := hv
    rcases hg with rfl | rfl
    · simp [voiceCode, maleVoices, h1, h2, h3, h4, h5, h6, hp]
    · simp [voiceCode, femaleVoices, h1, h2, h3, h4, h5, h6, hp]
  · simp only [objectProtoKeys, List.mem_cons, List.not_mem_nil, or_false] at hv
    rcases hg with rfl | rfl <;>
      rcases hv with rfl | rfl | rfl | rfl | rfl | rfl | rfl | rfl | rfl | rfl | rfl | rfl <;>
        decide

theorem voiceCode_resolution_witness :
    voiceCode "male" "en" = JsValue.str "en-us" ∧ voiceCode "male" "fr" = JsValue.str "fr" ∧
    voiceCode "male" "xx" = JsValue.str "xx" ∧ voiceCode "female" "xx" = JsValue.str "xx" ∧
    voiceCode "male" "valueOf" = JsValue.protoProp "valueOf" := by
  have h1 := voiceCode_resolution "fr" "male"
  have h2 := voiceCode_resolution "xx" "male"
  have h3 := voiceCode_resolution "xx" "female"
  have h4 := voiceCode_resolution "valueOf" "male"
  exact ⟨h1.1, (h1.2.2.2.1 (by decide)).1,
    h2.2.2.2.2.1 (Or.inl rfl) (by decide) (by decide),
    h3.2.2.2.2.1 (Or.inr rfl) (by decide) (by decide),
    h4.2.2.2.2.2 (Or.inl rfl) (by decide)⟩

/-- C4 counterexample: the engine field EDGE is a value other than the
exact string edge, yet the request dispatches to the edge adapter, not
to gtts: the handler lowercases the field before comparing, so the
claim that any engine value other than edge dispatches to gtts fails. -/
theorem uppercase_edge_dispatches_edge_cex :
    (convert gttsOkEnv reqUpperEdge []).edgeCalls = [("hi", JsValue.str "en-US-AriaNeural")] ∧
    (convert gttsOkEnv reqUpperEdge []).gttsCalls = [] := by
  decide

/-- C4 amended: engine selection defaults to gtts when the engine field
is absent or unrecognized, with the comparison made on the lowercased
field: any engine value whose lowercased form is not edge dispatches to
the gtts adapter, the edge adapter is not called, and no
unknown-engine validation error is ever raised. -/
theorem nonedge_engine_dispatches_gtts (env : Env) (req : ConvertRequest) (t : String) (fs : Fs)
    (hlow : toLowerCase (orDefault req.engine "gtts") ≠ "edge") :
    (convertBody env req t fs).gttsCalls =
      [(t, voiceCode (orDefault req.gender "male") (orDefault req.voice "en"))] ∧
    (convertBody env req t fs).edgeCalls = [] ∧
    ∀ m, (convertBody env req t fs).result ≠ ConvertResult.validationError m := by
  cases hg : env.gtts t (voiceCode (orDefault req.gender "male") (orDefault req.voice "en")) with
  | ok audio => simp [convertBody, hlow, hg]
  | fail w => cases w <;> simp [convertBody, hlow, hg]

theorem nonedge_engine_dispatches_gtts_witness :
    (convertBody gttsOkEnv reqNeutral "hi" []).gttsCalls =
      [("hi", voiceCode (orDefault (some "neutral") "male") (orDefault (some "en") "en"))] ∧
    (convertBody gttsOkEnv reqNeutral "hi" []).edgeCalls = [] ∧
    (convertBody gttsOkEnv reqNeutral "hi" []).result ≠
      ConvertResult.validationError "No text or file provided" := by
  have h := nonedge_engine_dispatches_gtts gttsOkEnv reqNeutral "hi" [] (by decide)
  exact ⟨h.1, h.2.1, h.2.2 "No text or file provided"⟩

/-- C5 counterexample: an edge request does not bypass the voice
resolver entirely: the gender mapping block runs unconditionally before
the dispatch, so with the defaulted gender male the male table is
consulted (resolverConsulted is true) even though the edge adapter is
then invoked with the raw voice field en, not with the resolved en-us. -/
theorem edge_request_consults_resolver_cex :
    (convert gttsOkEnv reqEdgeRaw []).resolverConsulted = true ∧
    (convert gttsOkEnv reqEdgeRaw []).edgeCalls = [("Test", JsValue.str "en")] := by
  decide

/-- C5 amended: for every request dispatched to the edge engine the
output of the voice resolver is ignored: the edge adapter is invoked
with the raw voice field verbatim, or with the default en-US-AriaNeural
when the field is absent, and the gtts adapter is not called; the
gender mapping code nevertheless still runs before the dispatch. -/
theorem edge_engine_uses_raw_voice (env : Env) (req : ConvertRequest) (t : String) (fs : Fs)
    (hlow : toLowerCase (orDefault req.engine "gtts") = "edge") :
    (convertBody env req t fs).edgeCalls =
      [(t, JsValue.str (orDefault req.voice "en-US-AriaNeural"))] ∧
    (convertBody env req t fs).gttsCalls = [] := by
  cases he : env.edge t (orDefault req.voice "en-US-AriaNeural") <;>
    simp [convertBody, hlow, he]

theorem edge_engine_uses_raw_voice_witness :
    (convertBody gttsOkEnv reqEdgeRaw "Test" []).edgeCalls =
      [("Test", JsValue.str (orDefault (some "en") "en-US-AriaNeural"))] ∧
    (convertBody gttsOkEnv reqEdgeRaw "Test" []).gttsCalls = [] :=
  edge_engine_uses_raw_voice gttsOkEnv reqEdgeRaw "Test" [] (by decide)

/-- C6 counterexample: with the unrecognized gender value neutral, the
voice en is not resolved as if gender were male: the gtts engine is
invoked with the untouched voice en rather than the claimed en-us,
because an unrecognized gender skips both mapping tables. -/
theorem unrecognized_gender_not_male_cex :
    (convert gttsOkEnv reqNeutral []).gttsCalls = [("hi", JsValue.str "en")] ∧
    voiceCode "neutral" "en" = JsValue.str "en" ∧
    voiceCode "neutral" "en" ≠ JsValue.str "en-us" := by
  decide

/-- C6 amended: when the gender field is absent or the empty string it
defaults to male, so voice en resolves to en-us; but a present
unrecognized gender value is not treated as male: it skips both mapping
tables and leaves every requested voice unchanged. -/
theorem gender_defaulting_behavior (g v : String) :
    voiceCode (orDefault none "male") "en" = JsValue.str "en-us" ∧
    voiceCode (orDefault (some "") "male") "en" = JsValue.str "en-us" ∧
    (g ≠ "male" → g ≠ "female" → voiceCode g v = JsValue.str v) := by
  refine ⟨by decide, by decide, fun h1 h2 => ?_⟩
  simp [voiceCode, h1, h2]

theorem gender_defaulting_behavior_witness :
    voiceCode (orDefault none "male") "en" = JsValue.str "en-us" ∧
    voiceCode "neutral" "en" = JsValue.str "en" := by
  have h := gender_defaulting_behavior "neutral" "en"
  exact ⟨h.1, h.2.2 (by decide) (by decide)⟩

/-- C7: every engine failure during synthesis or artifact write yields
the catch-all conversion error response and never a success value; a
partially written artifact is left on disk exactly as the engine left
it (no rollback or cleanup), and when nothing was written the
filesystem is unchanged. -/
theorem engine_failure_yields_error (env : Env) (req : ConvertRequest) (t : String) (fs : Fs) :
    (∀ w, toLowerCase (orDefault req.engine "gtts") ≠ "edge" →
      env.gtts t (voiceCode (orDefault req.gender "male") (orDefault req.voice "en")) =
        GttsOutcome.fail w →
      (convertBody env req t fs).result = ConvertResult.conversionError ∧
      (∀ u fn, (convertBody env req t fs).result ≠ ConvertResult.success u fn) ∧
      (∀ b, w = some b →
        fsRead (convertBody env req t fs).fs (outputPath env.ts) = some b) ∧
      (w = none → (convertBody env req t fs).fs = fs)) ∧
    (toLowerCase (orDefault req.engine "gtts") = "edge" →
      env.edge t (orDefault req.voice "en-US-AriaNeural") = none →
      (convertBody env req t fs).result = ConvertResult.conversionError ∧
      (∀ u fn, (convertBody env req t fs).result ≠ ConvertResult.success u fn) ∧
      (convertBody env req t fs).fs = fs) := by
  constructor
  · rintro w hlow hg
    cases w with
    | some b => simp [convertBody, hlow, hg, fsRead_fsWrite_self]
    | none => simp [convertBody, hlow, hg]
  · rintro hlow he
    simp [convertBody, hlow, he]

theorem engine_failure_yields_error_witness :
    (convertBody gttsFailEnv reqGtts "Hello world" []).result =
      ConvertResult.conversionError ∧
    (convertBody gttsFailEnv reqGtts "Hello world" []).result ≠
      ConvertResult.success "/audio/speech-9.mp3" "speech-9.mp3" ∧
    fsRead (convertBody gttsFailEnv reqGtts "Hello world" []).fs (outputPath 9) =
      some "PARTIALBYTES" := by
  have h := (engine_failure_yields_error gttsFailEnv reqGtts "Hello world" []).1
    (some "PARTIALBYTES") (by decide) rfl
  exact ⟨h.1, h.2.1 "/audio/speech-9.mp3" "speech-9.mp3", h.2.2.1 "PARTIALBYTES" rfl⟩

theorem convertBody_success_file (env : Env) (req : ConvertRequest) (t : String) (fs : Fs)
    (u fn : String) (h : (convertBody env req t fs).result = ConvertResult.success u fn) :
    (fsRead (convertBody env req t fs).fs (audioDir ++ "/" ++ fn)).isSome = true := by
  by_cases hc : toLowerCase (orDefault req.engine "gtts") = "edge"
  · cases he : env.edge t (orDefault req.voice "en-US-AriaNeural") with
    | none => simp [convertBody, hc, he] at h
    | some audio =>
        simp only [convertBody, hc, he, if_true, eq_self_iff_true, if_pos,
          ConvertResult.success.injEq] at h ⊢
        obtain ⟨h1, h2⟩ := h
        subst h2
        rw [show audioDir ++ "/" ++ outputFileName env.ts = outputPath env.ts from rfl,
          fsRead_fsWrite_self]
        rfl
  · cases hg : env.gtts t (voiceCode (orDefault req.gender "male") (orDefault req.voice "en")) with
    | ok audio =>
        rw [show convertBody env req t fs =
            { result := ConvertResult.success ("/audio/" ++ outputFileName env.ts)
                (outputFileName env.ts)
              fs := fsWrite fs (outputPath env.ts) audio
              resolverConsulted :=
                (orDefault req.gender "male" == "male" ||
                  orDefault req.gender "male" == "female")
              gttsCalls :=
                [(t, voiceCode (orDefault req.gender "male") (orDefault req.voice "en"))]
              edgeCalls := [] } from by simp [convertBody, hc, hg]] at h ⊢
        simp only [ConvertResult.success.injEq] at h
        obtain ⟨h1, h2⟩ := h
        subst h2
        rw [show audioDir ++ "/" ++ outputFileName env.ts = outputPath env.ts from rfl,
          fsRead_fsWrite_self]
        rfl
    | fail w => cases w <;> simp [convertBody, hc, hg] at h

/-- C8 counterexample: the legacy /convert handler deletes a
successfully produced artifact: on a conversion that succeeds
end-to-end (the file is written and streamed to the caller), the
clean-up-after-sending block unlinks the artifact, so after success the
artifact named speech-7.mp3 no longer exists in the audio directory. -/
theorem legacy_success_deletes_artifact_cex :
    (legacyConvert gttsOkEnv reqGtts []).result = LegacyResult.sent "speech-7.mp3" ∧
    fsRead (legacyConvert gttsOkEnv reqGtts []).fs (outputPath 7) = none := by
  decide

/-- C8 amended: the current JSON /convert handler never deletes a
committed artifact: whenever convert returns a success value, the file
named in that value still exists in the audio directory afterwards.
The legacy streaming handler in src/server.js, by contrast, deletes the
artifact right after sending it. -/
theorem convert_success_artifact_persists (env : Env) (req : ConvertRequest) (fs : Fs)
    (u fn : String) (h : (convert env req fs).result = ConvertResult.success u fn) :
    (fsRead (convert env req fs).fs (audioDir ++ "/" ++ fn)).isSome = true := by
  cases hf : req.file with
  | some fpath =>
      cases hr : fsRead fs fpath with
      | none => simp [convert, hf, hr] at h
      | some c =>
          have hc : convert env req fs = convertBody env req c (fsRemove fs fpath) := by
            simp [convert, hf, hr]
          rw [hc] at h ⊢
          exact convertBody_success_file env req c (fsRemove fs fpath) u fn h
  | none =>
      by_cases ht : jsTruthy req.textInput
      · have hc : convert env req fs = convertBody env req (req.textInput.getD "") fs := by
          simp [convert, hf, ht]
        rw [hc] at h ⊢
        exact convertBody_success_file env req (req.textInput.getD "") fs u fn h
      · simp [convert, hf, ht] at h

theorem convert_success_artifact_persists_witness :
    (fsRead (convert gttsOkEnv reqGtts []).fs (audioDir ++ "/" ++ "speech-7.mp3")).isSome =
      true :=
  convert_success_artifact_persists gttsOkEnv reqGtts [] "/audio/speech-7.mp3" "speech-7.mp3"
    (by decide)

/-- C9: when a request carries an uploaded file present on disk, the
handler reads its contents and unlinks it immediately, before synthesis
begins: the whole conversion is equal to the post-extraction body run
on the filesystem with the upload already removed, and the upload path
is absent from the final filesystem whatever the engines do. -/
theorem upload_deleted_after_read (env : Env) (req : ConvertRequest) (fs : Fs)
    (fpath c : String)
    (hfile : req.file = some fpath) (hread : fsRead fs fpath = some c)
    (hne : fpath ≠ outputPath env.ts) :
    convert env req fs = convertBody env req c (fsRemove fs fpath) ∧
    fsRead (convert env req fs).fs fpath = none := by
  have h1 : convert env req fs = convertBody env req c (fsRemove fs fpath) := by
    simp [convert, hfile, hread]
  refine ⟨h1, ?_⟩
  rw [h1, convertBody_frame env req c (fsRemove fs fpath) fpath hne]
  exact fsRead_fsRemove_self fs fpath

theorem upload_deleted_after_read_witness :
    convert gttsOkEnv reqFile fsFile =
      convertBody gttsOkEnv reqFile "file text" (fsRemove fsFile "uploads/123-a.txt") ∧
    fsRead (convert gttsOkEnv reqFile fsFile).fs "uploads/123-a.txt" = none :=
  upload_deleted_after_read gttsOkEnv reqFile fsFile "uploads/123-a.txt" "file text"
    rfl rfl (by decide)

/-- C10: the uploaded file takes strict precedence over inline text:
when a request carries a readable uploaded file, every engine call uses
the file contents as its text, whatever the textInput field holds; the
inline field is consulted only when no file is present, in which case
every engine call uses the inline text. -/
theorem file_precedence_over_inline (env : Env) (req : ConvertRequest) (fs : Fs)
    (fpath c t : String) :
    (req.file = some fpath → fsRead fs fpath = some c →
      ∀ call ∈ (convert env req fs).gttsCalls ++ (convert env req fs).edgeCalls,
        call.1 = c) ∧
    (req.file = none → req.textInput = some t → t ≠ "" →
      ∀ call ∈ (convert env req fs).gttsCalls ++ (convert env req fs).edgeCalls,
        call.1 = t) := by
  constructor
  · intro hfile hread
    have h1 : convert env req fs = convertBody env req c (fsRemove fs fpath) := by
      simp [convert, hfile, hread]
    rw [h1]
    exact convertBody_calls_text env req c (fsRemove fs fpath)
  · intro hfile htext hne
    have h1 : convert env req fs = convertBody env req t fs := by
      simp [convert, hfile, htext, jsTruthy, hne]
    rw [h1]
    exact convertBody_calls_text env req t fs

theorem file_precedence_over_inline_witness :
    ("file text", voiceCode "male" "en") ∈
      (convert gttsOkEnv reqFile fsFile).gttsCalls ++
        (convert gttsOkEnv reqFile fsFile).edgeCalls ∧
    ("file text", voiceCode "male" "en").1 = "file text" ∧
    (convert gttsOkEnv reqFile fsFile).gttsCalls = [("file text", JsValue.str "en-us")] := by
  refine ⟨by decide, ?_, by decide⟩
  exact (file_precedence_over_inline gttsOkEnv reqFile fsFile
    "uploads/123-a.txt" "file text" "x").1 rfl rfl
    ("file text", voiceCode "male" "en") (by decide)
